import Mathlib

/-!
Verification of the appliance usage simulation and session-aggregation logic
of the Electricity-Usage-At-Home repository.

Generator side (src/script/python/simulation.py): each simulate function is
embedded as a pure function from a pseudo-random generator model, the current
datetime and the entropy consumed by the fresh re-seeding inside
insert_sql_statement, to the list of table rows its INSERT statements write.

Aggregator side (src/script/python/streamlit_deployment.py): the SQL query
total_usage_query is embedded over an explicit list of table rows, with the
LAG window function, the WHERE filter on the 6-minute gap, the GROUP BY count
and the final ORDER BY modelled step by step.
-/

namespace ElectricityUsage

/-- Model of Python's global random module, as used by simulation.py.
seedFn models random.seed(n): it maps a deterministic integer seed to an
internal state.  randint a b s models random.randint(a, b) run from state s,
returning the drawn value and the successor state.  The two proof fields are
the documented contract of random.randint: the draw lies in the closed
interval [a, b] whenever a <= b. -/
structure PRNG where
  seedFn : ℕ → ℕ
  randint : ℤ → ℤ → ℕ → ℤ × ℕ
  randint_le : ∀ a b s, a ≤ b → a ≤ (randint a b s).1
  randint_ge : ∀ a b s, a ≤ b → (randint a b s).1 ≤ b

/-- Model of a Python datetime value, with the fields simulation.py reads. -/
structure DateTime where
  year : ℕ
  month : ℕ
  day : ℕ
  hour : ℕ
  minute : ℕ
  second : ℕ

/-- Two datetimes fall on the same calendar day. -/
def sameCalendarDate (t u : DateTime) : Prop :=
  t.year = u.year ∧ t.month = u.month ∧ t.day = u.day

instance (t u : DateTime) : Decidable (sameCalendarDate t u) := by
  unfold sameCalendarDate; infer_instance

/-- Embeds today_seed = int(now.strftime('%Y%m%d')) from simulation.py
(lines 142 and 175): the decimal digits YYYYMMDD read as one integer. -/
def today_seed (now : DateTime) : ℕ :=
  now.year * 10000 + now.month * 100 + now.day

/-- Python's round on an exact rational value: round half to even. -/
def pyRound (q : ℚ) : ℤ :=
  if q - ⌊q⌋ < 1 / 2 then ⌊q⌋
  else if 1 / 2 < q - ⌊q⌋ then ⌊q⌋ + 1
  else if ⌊q⌋ % 2 = 0 then ⌊q⌋ else ⌊q⌋ + 1

theorem floor_le_pyRound (q : ℚ) : ⌊q⌋ ≤ pyRound q := by
  unfold pyRound; split_ifs <;> omega

theorem pyRound_le_floor_add_one (q : ℚ) : pyRound q ≤ ⌊q⌋ + 1 := by
  unfold pyRound; split_ifs <;> omega

/-- One row of the electricity_consumption table as written by the generator;
recorded_at_timestamp is assigned server-side by NOW() and is not part of the
generator's observable output, so it is omitted here. -/
structure Reading where
  appliance_name : String
  power_consumption_val : ℤ
deriving DecidableEq, Repr

/-- Embeds the power computation of insert_sql_statement (simulation.py lines
88-93): seed() re-seeds from OS entropy (modelled by the entropy state passed
in), then final_power = randint(round(power*0.95), round(power*1.05)). -/
def final_power (rng : PRNG) (power : ℤ) (entropy : ℕ) : ℤ :=
  let variation : ℚ := 5 / 100
  let lower_bound := pyRound ((power : ℚ) * (1 - variation))
  let upper_bound := pyRound ((power : ℚ) * (1 + variation))
  (rng.randint lower_bound upper_bound entropy).1

/-- Embeds insert_sql_statement (simulation.py lines 67-105) as the table row
its returned INSERT statement writes. -/
def insert_sql_statement (rng : PRNG) (appliance_name : String) (power : ℤ)
    (entropy : ℕ) : Reading :=
  { appliance_name := appliance_name
    power_consumption_val := final_power rng power entropy }

/-- Embeds simulate_refrigerator_usage (simulation.py lines 107-124): one
unconditional insert of a 300 W nominal Refrigerator reading. -/
def simulate_refrigerator_usage (rng : PRNG) (now : DateTime) (entropy : ℕ) :
    List Reading :=
  [insert_sql_statement rng "Refrigerator" 300 entropy]

/-- Embeds the bound computation of simulate_airconditioner_usage
(simulation.py lines 141-146): seed(today_seed); morning = randint(6, 10);
night = randint(4, 24), with the generator state threaded through. -/
def ac_bounds (rng : PRNG) (now : DateTime) : ℤ × ℤ :=
  let s0 := rng.seedFn (today_seed now)
  let morning := rng.randint 6 10 s0
  let night := rng.randint 4 24 morning.2
  (morning.1, night.1)

/-- The activation bounds governing one air-conditioner unit on one
invocation.  In simulation.py the loop over the two units (lines 150-157)
sits inside the single if-guard, after one shared draw of the bounds, so the
bounds for any unit are the one shared pair: the unit name never enters the
computation. -/
def ac_bounds_for_unit (rng : PRNG) (now : DateTime) (unit : String) : ℤ × ℤ :=
  ac_bounds rng now

/-- Embeds simulate_airconditioner_usage (simulation.py lines 126-158): when
now.hour <= morning bound or now.hour >= night bound, one reading is inserted
for each of the two configured AC appliances, in dictionary order. -/
def simulate_airconditioner_usage (rng : PRNG) (now : DateTime)
    (entropy1 entropy2 : ℕ) : List Reading :=
  let bounds := ac_bounds rng now
  if (now.hour : ℤ) ≤ bounds.1 ∨ (now.hour : ℤ) ≥ bounds.2 then
    [insert_sql_statement rng "Europace Portable AC" 2100 entropy1,
     insert_sql_statement rng "Wall mounted AC" 3500 entropy2]
  else []

/-- Embeds the bound computation of simulate_washing_machine_usage
(simulation.py lines 174-179): seed(today_seed); lower = randint(6, 7);
upper = randint(7, 9). -/
def wm_bounds (rng : PRNG) (now : DateTime) : ℤ × ℤ :=
  let s0 := rng.seedFn (today_seed now)
  let lower := rng.randint 6 7 s0
  let upper := rng.randint 7 9 lower.2
  (lower.1, upper.1)

/-- Embeds simulate_washing_machine_usage (simulation.py lines 160-185): one
reading is inserted exactly when lower <= now.hour <= upper. -/
def simulate_washing_machine_usage (rng : PRNG) (now : DateTime)
    (entropy : ℕ) : List Reading :=
  let bounds := wm_bounds rng now
  if bounds.1 ≤ (now.hour : ℤ) ∧ (now.hour : ℤ) ≤ bounds.2 then
    [insert_sql_statement rng "Washing Machine" 1000 entropy]
  else []

/-- A linear congruential step, used as the state transition of the concrete
witness generator below. -/
def lcgStep (s : ℕ) : ℕ := (s * 1103515245 + 12345) % 2 ^ 31

/-- A concrete PRNG instance satisfying the randint contract, used to
evaluate the embedded functions at concrete inputs. -/
def demoPRNG : PRNG where
  seedFn n := n % 2 ^ 31
  randint a b s := if a ≤ b then (a + (s : ℤ) % (b - a + 1), lcgStep s) else (a, lcgStep s)
  randint_le := by
    intro a b s hab
    simp only [if_pos hab]
    have h1 : (0 : ℤ) ≤ (s : ℤ) % (b - a + 1) :=
      Int.emod_nonneg _ (by omega)
    omega
  randint_ge := by
    intro a b s hab
    simp only [if_pos hab]
    have h1 : (s : ℤ) % (b - a + 1) < b - a + 1 :=
      Int.emod_lt_of_pos _ (by omega)
    omega

/-- One persisted row of the electricity_consumption table as read back by
the aggregator; recorded_at_timestamp is in seconds. -/
structure Row where
  appliance_name : String
  power_consumption_val : ℤ
  recorded_at_timestamp : ℤ
deriving DecidableEq, Repr

/-- The distinct appliance names of the table: the partitions produced by
PARTITION BY appliance_name in the ordered_appliance CTE. -/
def appliance_partitions (rows : List Row) : List String :=
  (rows.map (fun r => r.appliance_name)).dedup

/-- The timestamps of one partition in ORDER BY recorded_at_timestamp order. -/
def sorted_timestamps (rows : List Row) (a : String) : List ℤ :=
  List.insertionSort (fun x y => x ≤ y)
    ((rows.filter (fun r => r.appliance_name == a)).map
      (fun r => r.recorded_at_timestamp))

/-- Tail of the LAG window: each timestamp paired with its predecessor. -/
def lagAfter (prev : ℤ) : List ℤ → List (ℤ × Option ℤ)
  | [] => []
  | t :: ts => (t, some prev) :: lagAfter t ts

/-- LAG(recorded_at_timestamp) over one ordered partition: the first row gets
NULL (none), every later row gets the previous row's timestamp. -/
def withLag : List ℤ → List (ℤ × Option ℤ)
  | [] => []
  | t :: ts => (t, none) :: lagAfter t ts

/-- The WHERE clause of the outer query:
recorded_at_timestamp - previous_timestamp < INTERVAL '6 minutes'.
A NULL previous_timestamp makes the comparison non-true, so the row is
dropped, exactly as in SQL three-valued logic. -/
def keeps_row (tp : ℤ × Option ℤ) : Bool :=
  match tp.2 with
  | some prev => decide (tp.1 - prev < 360)
  | none => false

/-- The ordered_appliance CTE of total_usage_query (streamlit_deployment.py
lines 17-25): every table row, partitioned by appliance name, ordered by
timestamp within each partition, with its LAG timestamp attached. -/
def ordered_appliance (rows : List Row) : List (String × ℤ × Option ℤ) :=
  (appliance_partitions rows).flatMap
    (fun a => (withLag (sorted_timestamps rows a)).map (fun tp => (a, tp.1, tp.2)))

/-- The CTE rows surviving the WHERE clause of total_usage_query. -/
def kept_rows (rows : List Row) : List (String × ℤ × Option ℤ) :=
  (ordered_appliance rows).filter (fun x => keeps_row x.2)

/-- The GROUP BY appliance_name step over the rows surviving the WHERE
clause, each group reported as COUNT(appliance_name) * 5.  Groups are formed
only from surviving rows, so an appliance with no surviving row produces no
output row. -/
def grouped_totals (rows : List Row) : List (String × ℕ) :=
  ((kept_rows rows).map (fun x => x.1)).dedup.map
    (fun a => (a, ((kept_rows rows).countP (fun x => x.1 == a)) * 5))

/-- Embeds total_usage_query (streamlit_deployment.py lines 16-35): filter
the CTE rows by the 6-minute-gap WHERE clause, group the survivors by
appliance name, report COUNT(appliance_name) * 5 as total_usage_minutes per
group, and ORDER BY that total ascending. -/
def total_usage_query (rows : List Row) : List (String × ℕ) :=
  List.insertionSort (fun x y => x.2 ≤ y.2) (grouped_totals rows)

/-- Stated from the specification's counting formulation: the number of
readings in a timestamp-ordered list whose gap to the immediately preceding
reading is strictly below 360 seconds. -/
def closeGapCount : List ℤ → ℕ
  | [] => 0
  | [_] => 0
  | t :: u :: rest => (if u - t < 360 then 1 else 0) + closeGapCount (u :: rest)

/-- The specification's per-appliance count: readings of appliance a whose
gap to the previous reading of a (in timestamp order) is strictly below
6 minutes. -/
def countCloseGaps (rows : List Row) (a : String) : ℕ :=
  closeGapCount (sorted_timestamps rows a)

theorem countP_lagAfter :
    ∀ (l : List ℤ) (prev : ℤ),
      (lagAfter prev l).countP keeps_row = closeGapCount (prev :: l) := by
  intro l
  induction l with
  | nil => intro prev; rfl
  | cons t ts ih =>
    intro prev
    show ((t, some prev) :: lagAfter t ts).countP keeps_row = _
    rw [List.countP_cons, ih]
    by_cases h : t - prev < 360 <;>
      simp [closeGapCount, keeps_row, h, Nat.add_comm]

theorem countP_withLag (l : List ℤ) :
    (withLag l).countP keeps_row = closeGapCount l := by
  cases l with
  | nil => rfl
  | cons t ts =>
    show ((t, none) :: lagAfter t ts).countP keeps_row = _
    rw [List.countP_cons, countP_lagAfter]
    simp [keeps_row]

theorem sum_map_ite {α : Type} [DecidableEq α] (l : List α) (hl : l.Nodup)
    (a : α) (c : ℕ) :
    (l.map (fun x => if x = a then c else 0)).sum = if a ∈ l then c else 0 := by
  induction l with
  | nil => simp
  | cons b t ih =>
    rw [List.nodup_cons] at hl
    simp only [List.map_cons, List.sum_cons, List.mem_cons]
    by_cases hba : b = a
    · subst hba
      simp [hl.1, ih hl.2]
    · have hab : ¬ a = b := fun h => hba h.symm
      by_cases hat : a ∈ t <;> simp [hba, hab, hat, ih hl.2]

theorem countP_partition_block (a a' : String) (ts : List ℤ) :
    ((withLag ts).map (fun tp => (a', tp.1, tp.2))).countP
        (fun x => (x.1 == a) && keeps_row x.2)
      = if a' = a then closeGapCount ts else 0 := by
  rw [List.countP_map]
  by_cases h : a' = a
  · subst h
    have hfun : ((fun x : String × ℤ × Option ℤ => (x.1 == a') && keeps_row x.2) ∘
        (fun tp : ℤ × Option ℤ => (a', tp.1, tp.2))) = keeps_row := by
      funext tp
      simp [Function.comp]
    rw [hfun, if_pos rfl, countP_withLag]
  · have hfun : ((fun x : String × ℤ × Option ℤ => (x.1 == a) && keeps_row x.2) ∘
        (fun tp : ℤ × Option ℤ => (a', tp.1, tp.2))) = fun _ => false := by
      funext tp
      simp [Function.comp, h]
    rw [hfun, if_neg h]
    simp

theorem countCloseGaps_eq_zero_of_not_mem (rows : List Row) (a : String)
    (h : a ∉ appliance_partitions rows) : countCloseGaps rows a = 0 := by
  have hfilter : rows.filter (fun r => r.appliance_name == a) = [] := by
    rw [List.filter_eq_nil_iff]
    intro r hr
    simp only [appliance_partitions, List.mem_dedup, List.mem_map] at h
    simp only [beq_iff_eq]
    intro heq
    exact h ⟨r, hr, heq⟩
  unfold countCloseGaps sorted_timestamps
  rw [hfilter]
  rfl

theorem countP_flat_blocks (rows : List Row) (a : String) :
    ∀ parts : List String, parts.Nodup →
      ((parts.flatMap (fun a' =>
          (withLag (sorted_timestamps rows a')).map (fun tp => (a', tp.1, tp.2)))).countP
        (fun x => (x.1 == a) && keeps_row x.2))
      = if a ∈ parts then countCloseGaps rows a else 0 := by
  intro parts
  induction parts with
  | nil => intro _; simp
  | cons b t ih =>
    intro hnd
    rw [List.nodup_cons] at hnd
    rw [List.flatMap_cons, List.countP_append, ih hnd.2, countP_partition_block]
    by_cases hba : b = a
    · subst hba
      simp [hnd.1, countCloseGaps]
    · have hab : ¬ a = b := fun h => hba h.symm
      by_cases hat : a ∈ t <;> simp [hba, hab, hat]

theorem kept_countP (rows : List Row) (a : String) :
    (kept_rows rows).countP (fun x => x.1 == a) = countCloseGaps rows a := by
  have hnd : (appliance_partitions rows).Nodup := List.nodup_dedup _
  unfold kept_rows ordered_appliance
  simp only [List.countP_filter]
  rw [countP_flat_blocks rows a _ hnd]
  by_cases hmem : a ∈ appliance_partitions rows
  · simp [hmem]
  · simp [hmem, countCloseGaps_eq_zero_of_not_mem rows a hmem]

theorem mem_kept_names_iff (rows : List Row) (a : String) :
    a ∈ ((kept_rows rows).map (fun x => x.1)).dedup ↔
      0 < countCloseGaps rows a := by
  rw [List.mem_dedup, List.mem_map, ← kept_countP rows a, List.countP_pos_iff]
  constructor
  · rintro ⟨x, hx, rfl⟩
    exact ⟨x, hx, by simp⟩
  · rintro ⟨x, hx, hbeq⟩
    exact ⟨x, hx, by simpa using hbeq⟩

theorem mem_total_usage_iff (rows : List Row) (a : String) (v : ℕ) :
    (a, v) ∈ total_usage_query rows ↔
      0 < countCloseGaps rows a ∧ v = countCloseGaps rows a * 5 := by
  unfold total_usage_query grouped_totals
  rw [List.mem_insertionSort, List.mem_map]
  constructor
  · rintro ⟨a', ha', heq⟩
    rw [Prod.mk.injEq] at heq
    obtain ⟨h1, h2⟩ := heq
    subst h1
    rw [kept_countP] at h2
    exact ⟨(mem_kept_names_iff rows a').1 ha', h2.symm⟩
  · rintro ⟨hpos, rfl⟩
    refine ⟨a, (mem_kept_names_iff rows a).2 hpos, ?_⟩
    rw [Prod.mk.injEq, kept_countP]
    exact ⟨rfl, rfl⟩

theorem fst_mem_partitions_of_mem_kept (rows : List Row) :
    ∀ x ∈ kept_rows rows, x.1 ∈ appliance_partitions rows := by
  intro x hx
  have hx' : x ∈ ordered_appliance rows := List.mem_of_mem_filter hx
  unfold ordered_appliance at hx'
  rw [List.mem_flatMap] at hx'
  obtain ⟨a', ha', hxa⟩ := hx'
  rw [List.mem_map] at hxa
  obtain ⟨tp, _, rfl⟩ := hxa
  exact ha'

theorem closeGapCount_eq_zero_of_short :
    ∀ l : List ℤ, l.length ≤ 1 → closeGapCount l = 0
  | [], _ => rfl
  | [_], _ => rfl
  | _ :: _ :: _, h => by simp at h

theorem dedup_eq_singleton_of_all {α : Type} [DecidableEq α] (a : α) :
    ∀ l : List α, l ≠ [] → (∀ x ∈ l, x = a) → l.dedup = [a]
  | [], h, _ => absurd rfl h
  | b :: t, _, hall => by
    have hb : b = a := hall b (List.mem_cons_self b t)
    subst hb
    cases t with
    | nil => simp
    | cons c t' =>
      have hc : c = b := hall c (by simp)
      have hmem : b ∈ c :: t' := by simp [hc]
      rw [List.dedup_cons_of_mem hmem]
      exact dedup_eq_singleton_of_all b (c :: t') (by simp)
        (fun x hx => hall x (List.mem_cons_of_mem _ hx))

/-- A synthetic log of n readings for one appliance with uniform 5-minute
(300-second) spacing starting at t0, as in the round-trip property. -/
def uniform_log (a : String) : ℤ → ℕ → List Row
  | _, 0 => []
  | t0, n + 1 => ⟨a, 0, t0⟩ :: uniform_log a (t0 + 300) n

/-- The timestamps of a uniform log: an arithmetic progression of step 300. -/
def every5min : ℤ → ℕ → List ℤ
  | _, 0 => []
  | t0, n + 1 => t0 :: every5min (t0 + 300) n

theorem filter_uniform_log (a : String) :
    ∀ (t0 : ℤ) (n : ℕ),
      (uniform_log a t0 n).filter (fun r => r.appliance_name == a)
        = uniform_log a t0 n
  | _, 0 => rfl
  | t0, n + 1 => by
    simp [uniform_log, List.filter, filter_uniform_log a (t0 + 300) n]

theorem map_ts_uniform_log (a : String) :
    ∀ (t0 : ℤ) (n : ℕ),
      (uniform_log a t0 n).map (fun r => r.recorded_at_timestamp)
        = every5min t0 n
  | _, 0 => rfl
  | t0, n + 1 => by
    simp [uniform_log, every5min, map_ts_uniform_log a (t0 + 300) n]

theorem map_name_uniform_log (a : String) :
    ∀ (t0 : ℤ) (n : ℕ),
      (uniform_log a t0 n).map (fun r => r.appliance_name) = List.replicate n a
  | _, 0 => rfl
  | t0, n + 1 => by
    simp [uniform_log, map_name_uniform_log a (t0 + 300) n, List.replicate_succ]

theorem le_of_mem_every5min :
    ∀ (t0 : ℤ) (n : ℕ) (x : ℤ), x ∈ every5min t0 n → t0 ≤ x
  | t0, 0, x, h => by simp [every5min] at h
  | t0, n + 1, x, h => by
    rw [show every5min t0 (n + 1) = t0 :: every5min (t0 + 300) n from rfl,
      List.mem_cons] at h
    rcases h with h | h
    · omega
    · have := le_of_mem_every5min (t0 + 300) n x h
      omega

theorem sorted_every5min :
    ∀ (t0 : ℤ) (n : ℕ), List.Sorted (fun x y : ℤ => x ≤ y) (every5min t0 n)
  | _, 0 => List.sorted_nil
  | t0, n + 1 => by
    rw [show every5min t0 (n + 1) = t0 :: every5min (t0 + 300) n from rfl,
      List.sorted_cons]
    refine ⟨fun x hx => ?_, sorted_every5min (t0 + 300) n⟩
    have := le_of_mem_every5min (t0 + 300) n x hx
    omega

theorem sorted_timestamps_uniform (a : String) (t0 : ℤ) (n : ℕ) :
    sorted_timestamps (uniform_log a t0 n) a = every5min t0 n := by
  unfold sorted_timestamps
  rw [filter_uniform_log, map_ts_uniform_log]
  exact List.Sorted.insertionSort_eq (sorted_every5min t0 n)

theorem closeGap_every5min :
    ∀ (n : ℕ) (t0 : ℤ), closeGapCount (every5min t0 n) = n - 1
  | 0, _ => rfl
  | 1, _ => rfl
  | n + 2, t0 => by
    have ih := closeGap_every5min (n + 1) (t0 + 300)
    show (if t0 + 300 - t0 < 360 then 1 else 0)
        + closeGapCount (every5min (t0 + 300) (n + 1)) = n + 2 - 1
    rw [if_pos (by omega)]
    omega

theorem countCloseGaps_uniform (a : String) (t0 : ℤ) (n : ℕ) :
    countCloseGaps (uniform_log a t0 n) a = n - 1 := by
  unfold countCloseGaps
  rw [sorted_timestamps_uniform]
  exact closeGap_every5min n t0

theorem total_usage_uniform (a : String) (t0 : ℤ) (n : ℕ) (hn : 2 ≤ n) :
    total_usage_query (uniform_log a t0 n) = [(a, (n - 1) * 5)] := by
  have hcount : (kept_rows (uniform_log a t0 n)).countP (fun x => x.1 == a)
      = n - 1 := by
    rw [kept_countP, countCloseGaps_uniform]
  have hparts : appliance_partitions (uniform_log a t0 n) = [a] := by
    unfold appliance_partitions
    rw [map_name_uniform_log]
    apply dedup_eq_singleton_of_all
    · intro h
      have := congrArg List.length h
      simp at this
      omega
    · intro x hx
      exact List.eq_of_mem_replicate hx
  have hpos : 0 < (kept_rows (uniform_log a t0 n)).countP (fun x => x.1 == a) := by
    omega
  rw [List.countP_pos_iff] at hpos
  obtain ⟨w, hwmem, hwa⟩ := hpos
  have hnames : ((kept_rows (uniform_log a t0 n)).map (fun x => x.1)).dedup = [a] := by
    apply dedup_eq_singleton_of_all
    · intro h
      rw [List.map_eq_nil_iff] at h
      rw [h] at hwmem
      simp at hwmem
    · intro x hx
      rw [List.mem_map] at hx
      obtain ⟨y, hy, rfl⟩ := hx
      have := fst_mem_partitions_of_mem_kept _ y hy
      rw [hparts] at this
      simpa using this
  unfold total_usage_query grouped_totals
  rw [hnames, List.map_singleton, hcount]
  exact List.Sorted.insertionSort_eq (List.sorted_singleton _)

theorem today_seed_eq_of_sameDate {t u : DateTime} (h : sameCalendarDate t u) :
    today_seed t = today_seed u := by
  obtain ⟨h1, h2, h3⟩ := h
  unfold today_seed
  rw [h1, h2, h3]

theorem ac_bounds_date_only (rng : PRNG) {t u : DateTime}
    (h : sameCalendarDate t u) : ac_bounds rng t = ac_bounds rng u := by
  unfold ac_bounds
  rw [today_seed_eq_of_sameDate h]

theorem wm_bounds_date_only (rng : PRNG) {t u : DateTime}
    (h : sameCalendarDate t u) : wm_bounds rng t = wm_bounds rng u := by
  unfold wm_bounds
  rw [today_seed_eq_of_sameDate h]

theorem wm_bounds_range (rng : PRNG) (t : DateTime) :
    6 ≤ (wm_bounds rng t).1 ∧ (wm_bounds rng t).1 ≤ 7
      ∧ 7 ≤ (wm_bounds rng t).2 ∧ (wm_bounds rng t).2 ≤ 9 :=
  ⟨rng.randint_le 6 7 _ (by norm_num), rng.randint_ge 6 7 _ (by norm_num),
    rng.randint_le 7 9 _ (by norm_num), rng.randint_ge 7 9 _ (by norm_num)⟩

theorem wm_emits_iff (rng : PRNG) (t : DateTime) (entropy : ℕ) :
    simulate_washing_machine_usage rng t entropy ≠ [] ↔
      (wm_bounds rng t).1 ≤ (t.hour : ℤ) ∧ (t.hour : ℤ) ≤ (wm_bounds rng t).2 := by
  simp only [simulate_washing_machine_usage]
  split_ifs with hcond
  · simp [hcond]
  · simp [hcond]

theorem wm_emitted_names (rng : PRNG) (t : DateTime) (entropy : ℕ) :
    (simulate_washing_machine_usage rng t entropy).map (fun r => r.appliance_name) = []
      ∨ (simulate_washing_machine_usage rng t entropy).map (fun r => r.appliance_name)
          = ["Washing Machine"] := by
  simp only [simulate_washing_machine_usage]
  split_ifs
  · right; rfl
  · left; rfl

/-- Outcome of one run of main: the final result observed by the invoking
scheduler and the messages logged at error level. -/
structure RunLog (E : Type) where
  result : Except E Unit
  error_logs : List E

/-- The body of main's try block (simulation.py lines 215-236): connect,
simulate the three appliance groups, then commit; each step is fallible and
they run in sequence, aborting at the first failure. -/
def try_body {E : Type}
    (connect refrigerator airconditioner washing commitTx : Except E Unit) :
    Except E Unit := do
  connect
  refrigerator
  airconditioner
  washing
  commitTx

/-- Embeds main's error handling (simulation.py lines 215-239): run the try
block; on success nothing is logged at error level; on failure the except
block logs the exception once and re-raises it unchanged. -/
def main_run {E : Type}
    (connect refrigerator airconditioner washing commitTx : Except E Unit) :
    RunLog E :=
  match try_body connect refrigerator airconditioner washing commitTx with
  | Except.ok _ => ⟨Except.ok (), []⟩
  | Except.error e => ⟨Except.error e, [e]⟩

/-- C1: for every appliance, the total_usage_minutes that total_usage_query
reports equals 5 times the number of that appliance's readings whose gap to
the immediately preceding reading of the same appliance, in timestamp order,
is strictly below 360 seconds (a gap of exactly 360 seconds or more is not
counted); an appliance appears in the report exactly when at least one such
reading exists. -/
theorem C1_total_usage_counts_close_gaps (rows : List Row) (a : String) (v : ℕ) :
    (a, v) ∈ total_usage_query rows ↔
      0 < countCloseGaps rows a ∧ v = 5 * countCloseGaps rows a := by
  rw [mem_total_usage_iff]
  constructor
  · rintro ⟨h1, h2⟩
    exact ⟨h1, by omega⟩
  · rintro ⟨h1, h2⟩
    exact ⟨h1, by omega⟩

/-- C2 counterexample: on a concrete day, with a concrete generator, the two
air-conditioner units receive exactly the same activation bounds: the draw
is shared between the units, not independent per unit. -/
theorem C2_counterexample :
    ac_bounds_for_unit demoPRNG ⟨2025, 10, 12, 9, 0, 0⟩ "Europace Portable AC"
      = ac_bounds_for_unit demoPRNG ⟨2025, 10, 12, 9, 0, 0⟩ "Wall mounted AC" := rfl

/-- C2 (amended): the morning and night activation bounds are a deterministic
function of the calendar date alone — the unit id never enters the seed or
the draw — so any two invocations on the same calendar day yield identical
bounds for any pair of units; the two units share one draw rather than
receiving independent ones. -/
theorem C2_bounds_shared_per_day (rng : PRNG) (t u : DateTime)
    (unit1 unit2 : String) (h : sameCalendarDate t u) :
    ac_bounds_for_unit rng t unit1 = ac_bounds_for_unit rng u unit2 := by
  unfold ac_bounds_for_unit
  exact ac_bounds_date_only rng h

/-- C2 witness: the amended statement evaluated on a concrete day, concrete
generator and the two concrete unit names. -/
theorem C2_witness :
    sameCalendarDate ⟨2025, 10, 12, 6, 0, 0⟩ ⟨2025, 10, 12, 22, 30, 0⟩
      ∧ ac_bounds_for_unit demoPRNG ⟨2025, 10, 12, 6, 0, 0⟩ "Europace Portable AC"
          = ac_bounds_for_unit demoPRNG ⟨2025, 10, 12, 22, 30, 0⟩ "Wall mounted AC" :=
  ⟨by decide, C2_bounds_shared_per_day demoPRNG _ _ _ _ (by decide)⟩

/-- C3: for every nominal wattage p > 0, every generator and every entropy
state, the randomized power written into a reading lies in the closed
interval [round(0.95 * p), round(1.05 * p)]. -/
theorem C3_final_power_within_bounds (rng : PRNG) (p : ℤ) (entropy : ℕ)
    (hp : 0 < p) :
    pyRound ((0.95 : ℚ) * p) ≤ final_power rng p entropy
      ∧ final_power rng p entropy ≤ pyRound ((1.05 : ℚ) * p) := by
  have hp' : (0 : ℚ) < (p : ℚ) := by exact_mod_cast hp
  have h95 : ((0.95 : ℚ) * p) = ((p : ℚ) * (1 - 5 / 100)) := by ring
  have h105 : ((1.05 : ℚ) * p) = ((p : ℚ) * (1 + 5 / 100)) := by ring
  have hlt : (p : ℚ) * (1 - 5 / 100) < (p : ℚ) := by nlinarith
  have hge : (p : ℚ) ≤ (p : ℚ) * (1 + 5 / 100) := by nlinarith
  have hfl : ⌊(p : ℚ) * (1 - 5 / 100)⌋ < p := Int.floor_lt.2 hlt
  have hfu : p ≤ ⌊(p : ℚ) * (1 + 5 / 100)⌋ := Int.le_floor.2 hge
  have hlu : pyRound ((p : ℚ) * (1 - 5 / 100)) ≤ pyRound ((p : ℚ) * (1 + 5 / 100)) := by
    have h1 := pyRound_le_floor_add_one ((p : ℚ) * (1 - 5 / 100))
    have h2 := floor_le_pyRound ((p : ℚ) * (1 + 5 / 100))
    omega
  simp only [final_power]
  rw [h95, h105]
  exact ⟨rng.randint_le _ _ entropy hlu, rng.randint_ge _ _ entropy hlu⟩

/-- C3 witness: the bound theorem evaluated at the refrigerator's nominal
300 W rating with the concrete generator. -/
theorem C3_witness :
    (0 : ℤ) < 300
      ∧ (pyRound ((0.95 : ℚ) * (300 : ℤ)) ≤ final_power demoPRNG 300 0
          ∧ final_power demoPRNG 300 0 ≤ pyRound ((1.05 : ℚ) * (300 : ℤ))) :=
  ⟨by decide, C3_final_power_within_bounds demoPRNG 300 0 (by decide)⟩

/-- C4 counterexample: a table holding exactly one Refrigerator reading
produces an empty report: the appliance is absent, not reported with a zero
total as the claim states. -/
theorem C4_counterexample :
    total_usage_query [⟨"Refrigerator", 300, 0⟩] = []
      ∧ ("Refrigerator", 0) ∉ total_usage_query [⟨"Refrigerator", 300, 0⟩] := by
  have h : total_usage_query [⟨"Refrigerator", 300, 0⟩] = [] := rfl
  refine ⟨h, ?_⟩
  rw [h]
  simp

/-- C4 (amended): an appliance with at most one reading — in particular one
with exactly one reading, and one with no reading at all — is absent from
the aggregator's output mapping: its lone row, if any, has a NULL
previous_timestamp and is removed by the WHERE clause before GROUP BY. -/
theorem C4_at_most_one_reading_absent (rows : List Row) (a : String)
    (h : (rows.filter (fun r => r.appliance_name == a)).length ≤ 1) :
    ∀ v, (a, v) ∉ total_usage_query rows := by
  intro v hmem
  rw [mem_total_usage_iff] at hmem
  have hlen : (sorted_timestamps rows a).length ≤ 1 := by
    unfold sorted_timestamps
    rw [List.length_insertionSort, List.length_map]
    exact h
  have hz : countCloseGaps rows a = 0 := closeGapCount_eq_zero_of_short _ hlen
  rw [hz] at hmem
  exact absurd hmem.1 (lt_irrefl 0)

/-- C4 witness: an appliance with zero readings in a nonempty table is
absent from the report. -/
theorem C4_witness :
    (([⟨"Oven", 100, 5⟩] : List Row).filter
        (fun r => r.appliance_name == "Refrigerator")).length ≤ 1
      ∧ ("Refrigerator", 0) ∉ total_usage_query [⟨"Oven", 100, 5⟩] :=
  ⟨by decide, C4_at_most_one_reading_absent _ "Refrigerator" (by decide) 0⟩

/-- C5: computing the air-conditioner bounds or the washing-machine bounds
twice on the same calendar date yields identical bounds in both runs, for
any hours of day: the bounds are a deterministic function of the date. -/
theorem C5_schedule_idempotent_per_day (rng : PRNG) (t u : DateTime)
    (h : sameCalendarDate t u) :
    ac_bounds rng t = ac_bounds rng u ∧ wm_bounds rng t = wm_bounds rng u :=
  ⟨ac_bounds_date_only rng h, wm_bounds_date_only rng h⟩

/-- C5 witness: determinism evaluated at two concrete datetimes of the same
day, twelve hours apart, with the concrete generator. -/
theorem C5_witness :
    sameCalendarDate ⟨2025, 10, 11, 7, 15, 0⟩ ⟨2025, 10, 11, 19, 45, 30⟩
      ∧ (ac_bounds demoPRNG ⟨2025, 10, 11, 7, 15, 0⟩
            = ac_bounds demoPRNG ⟨2025, 10, 11, 19, 45, 30⟩
          ∧ wm_bounds demoPRNG ⟨2025, 10, 11, 7, 15, 0⟩
              = wm_bounds demoPRNG ⟨2025, 10, 11, 19, 45, 30⟩) :=
  ⟨by decide, C5_schedule_idempotent_per_day demoPRNG _ _ (by decide)⟩

/-- C6 counterexample: aggregating a log of exactly one reading (n = 1)
yields an empty report, not an entry with total (1-1)*5 = 0 minutes: the
appliance is absent for n = 1. -/
theorem C6_counterexample :
    total_usage_query (uniform_log "Washing Machine" 0 1) = []
      ∧ ("Washing Machine", 0) ∉ total_usage_query (uniform_log "Washing Machine" 0 1) := by
  have h : total_usage_query (uniform_log "Washing Machine" 0 1) = [] := rfl
  refine ⟨h, ?_⟩
  rw [h]
  simp

/-- C6 (amended): for every n ≥ 2, aggregating a log of n readings for one
appliance whose consecutive timestamps are uniformly 5 minutes apart yields
exactly one report entry, with (n-1)*5 total minutes; for n = 1 the
appliance is absent from the report (see the counterexample). -/
theorem C6_uniform_round_trip (a : String) (t0 : ℤ) (n : ℕ) (hn : 2 ≤ n) :
    total_usage_query (uniform_log a t0 n) = [(a, (n - 1) * 5)] :=
  total_usage_uniform a t0 n hn

/-- C6 witness: the round trip evaluated at a concrete log of four uniform
readings, yielding 15 minutes. -/
theorem C6_witness :
    2 ≤ 4
      ∧ total_usage_query (uniform_log "Refrigerator" 100 4) = [("Refrigerator", 15)] :=
  ⟨by decide, C6_uniform_round_trip "Refrigerator" 100 4 (by decide)⟩

/-- C7: the washing machine emits a reading on an invocation exactly when
the invocation hour lies within [morning_lower_bound, morning_upper_bound];
the lower bound always lies in [6,7] and the upper bound in [7,9]; at most
one reading, named Washing Machine, is emitted; and the bounds are seeded by
the calendar date alone, so any same-day invocation sees the same bounds. -/
theorem C7_washing_machine_window (rng : PRNG) (t u : DateTime) (entropy : ℕ)
    (h : sameCalendarDate t u) :
    (simulate_washing_machine_usage rng t entropy ≠ [] ↔
        (wm_bounds rng t).1 ≤ (t.hour : ℤ) ∧ (t.hour : ℤ) ≤ (wm_bounds rng t).2)
      ∧ ((simulate_washing_machine_usage rng t entropy).map (fun r => r.appliance_name) = []
          ∨ (simulate_washing_machine_usage rng t entropy).map (fun r => r.appliance_name)
              = ["Washing Machine"])
      ∧ (6 ≤ (wm_bounds rng t).1 ∧ (wm_bounds rng t).1 ≤ 7
          ∧ 7 ≤ (wm_bounds rng t).2 ∧ (wm_bounds rng t).2 ≤ 9)
      ∧ wm_bounds rng t = wm_bounds rng u :=
  ⟨wm_emits_iff rng t entropy, wm_emitted_names rng t entropy,
    wm_bounds_range rng t, wm_bounds_date_only rng h⟩

/-- C7 witness: the window theorem evaluated at two concrete datetimes of
the same day with the concrete generator. -/
theorem C7_witness :
    sameCalendarDate ⟨2025, 10, 12, 7, 0, 0⟩ ⟨2025, 10, 12, 8, 30, 0⟩
      ∧ ((simulate_washing_machine_usage demoPRNG ⟨2025, 10, 12, 7, 0, 0⟩ 0 ≠ [] ↔
            (wm_bounds demoPRNG ⟨2025, 10, 12, 7, 0, 0⟩).1 ≤ ((7 : ℕ) : ℤ)
              ∧ ((7 : ℕ) : ℤ) ≤ (wm_bounds demoPRNG ⟨2025, 10, 12, 7, 0, 0⟩).2)
          ∧ ((simulate_washing_machine_usage demoPRNG ⟨2025, 10, 12, 7, 0, 0⟩ 0).map
                (fun r => r.appliance_name) = []
              ∨ (simulate_washing_machine_usage demoPRNG ⟨2025, 10, 12, 7, 0, 0⟩ 0).map
                  (fun r => r.appliance_name) = ["Washing Machine"])
          ∧ (6 ≤ (wm_bounds demoPRNG ⟨2025, 10, 12, 7, 0, 0⟩).1
              ∧ (wm_bounds demoPRNG ⟨2025, 10, 12, 7, 0, 0⟩).1 ≤ 7
              ∧ 7 ≤ (wm_bounds demoPRNG ⟨2025, 10, 12, 7, 0, 0⟩).2
              ∧ (wm_bounds demoPRNG ⟨2025, 10, 12, 7, 0, 0⟩).2 ≤ 9)
          ∧ wm_bounds demoPRNG ⟨2025, 10, 12, 7, 0, 0⟩
              = wm_bounds demoPRNG ⟨2025, 10, 12, 8, 30, 0⟩) :=
  ⟨by decide, C7_washing_machine_window demoPRNG _ _ 0 (by decide)⟩

/-- C8: the refrigerator is active on every invocation: the generator emits
exactly one Refrigerator reading, unconditionally, whatever the timestamp,
generator state or entropy. -/
theorem C8_refrigerator_always_active (rng : PRNG) (now : DateTime) (entropy : ℕ) :
    (simulate_refrigerator_usage rng now entropy).map (fun r => r.appliance_name)
      = ["Refrigerator"] := rfl

/-- C9: if the try block of a run fails with error e at any of its steps,
main logs the error exactly once and re-raises it unchanged, so the result
the scheduler observes is that same failure. -/
theorem C9_error_logged_once_and_reraised {E : Type}
    (connect refrigerator airconditioner washing commitTx : Except E Unit) (e : E)
    (h : try_body connect refrigerator airconditioner washing commitTx
        = Except.error e) :
    (main_run connect refrigerator airconditioner washing commitTx).result
        = Except.error e
      ∧ (main_run connect refrigerator airconditioner washing commitTx).error_logs
          = [e] := by
  unfold main_run
  rw [h]
  exact ⟨rfl, rfl⟩

/-- C9 witness: a run whose connection step fails is reported as that
failure with exactly one error log entry. -/
theorem C9_witness :
    try_body (Except.error "connection refused") (Except.ok ()) (Except.ok ())
        (Except.ok ()) (Except.ok ()) = Except.error "connection refused"
      ∧ ((main_run (Except.error "connection refused") (Except.ok ()) (Except.ok ())
            (Except.ok ()) (Except.ok ())).result = Except.error "connection refused"
          ∧ (main_run (Except.error "connection refused") (Except.ok ()) (Except.ok ())
              (Except.ok ()) (Except.ok ())).error_logs = ["connection refused"]) :=
  ⟨rfl, C9_error_logged_once_and_reraised _ _ _ _ _ _ rfl⟩

/-- C10: within any single invocation the two air-conditioner units share
one activation decision: either a Portable AC reading and a Wall-mounted AC
reading are both emitted, in that order, or neither is. -/
theorem C10_ac_units_share_one_decision (rng : PRNG) (now : DateTime)
    (entropy1 entropy2 : ℕ) :
    (simulate_airconditioner_usage rng now entropy1 entropy2).map
        (fun r => r.appliance_name) = []
      ∨ (simulate_airconditioner_usage rng now entropy1 entropy2).map
          (fun r => r.appliance_name) = ["Europace Portable AC", "Wall mounted AC"] := by
  simp only [simulate_airconditioner_usage]
  split_ifs
  · right; rfl
  · left; rfl

end ElectricityUsage
